import Mathlib

/-!
# srslog: construction entry points

A shallow embedding of `srslog.go`: the constructors `New`, `Dial`,
`DialWithTLSCertPath`, `DialWithTLSConfig` and `NewLogger`.

Go pointers that may be nil (`*writer`, `*tls.Config`, `*log.Logger`) are
`Option`s, a Go `error` is an `Option GoError` (`none` is the nil error), and a
Go function returning `(x, err)` returns a pair.  The functions of the file
call collaborators that live outside it (`validatePriority`, `os.Hostname`,
`ioutil.ReadFile`, `(*writer).connect`, ...): these are the fields of `Sys`.
Effects are made explicit by passing a state `St` made of the outside world and
of the chronological trace of the calls made so far.
-/

namespace Srslog

/-! ## Data model -/

/-- Go `type priority int`. -/
abbrev Priority := Int

/-- The values of Go's `error` interface; the nil error is `none : Option GoError`. -/
abbrev GoError := String

/-- Go `[]byte`. -/
abbrev Bytes := List Nat

/-- An X.509 certificate, as its encoded bytes. -/
abbrev Cert := List Nat

/-- Go `x509.CertPool`: a collection of certificates. -/
abbrev CertPool := List Cert

/-- Go `tls.Config`, restricted to the field `srslog.go` sets (`RootCAs`) and four
representative fields among those it leaves at their zero value. -/
structure TlsConfig where
  RootCAs : Option CertPool
  ServerName : String
  InsecureSkipVerify : Bool
  MinVersion : Nat
  MaxVersion : Nat
deriving DecidableEq, Repr

/-- The zero value `tls.Config{}`. -/
def TlsConfig.zero : TlsConfig :=
  { RootCAs := none, ServerName := "", InsecureSkipVerify := false,
    MinVersion := 0, MaxVersion := 0 }

/-- A live connection handle (the `serverConn` interface), as an identifier. -/
abbrev Conn := Nat

/-- Modelled from the spec: the declaration of the struct `writer` is not in
`srslog.go`.  Its fields are the six fields named by the composite literal of
`DialWithTLSConfig` (lines 62-69) and the current connection handle of spec §3
(absent until `connect` stores one).  The mutex embedded in the writer is not a
field here: `Lock` and `Unlock` are recorded in the trace. -/
structure Writer where
  priority : Priority
  tag : String
  hostname : String
  network : String
  raddr : String
  tlsConfig : Option TlsConfig
  conn : Option Conn
deriving DecidableEq, Repr

/-- Go's conversion `int32(x)` of an integer: the value congruent to `x` modulo
`2^32` in the range from `-2^31` to `2^31 - 1`. -/
def toInt32 (x : Int) : Int :=
  (x + 2147483648) % 4294967296 - 2147483648

/-- Go `log.Logger`, with the three fields `log.New` sets; `flag` holds the
`int32` the logger stores. -/
structure Logger where
  out : Option Writer
  pfx : String
  flag : Int
deriving DecidableEq, Repr

/-- Go `log.New(out, prefix, flag)`: it sets the output and the prefix, and
`SetFlags` stores `int32(flag)`. -/
def logNew (out : Option Writer) (pfx : String) (flag : Int) : Logger :=
  { out := out, pfx := pfx, flag := toInt32 flag }

/-! ## Effects -/

/-- One call out of `srslog.go` to a collaborator. -/
inductive Event where
  | readFile (path : String)
  | validate (p : Priority)
  | hostname
  | lock
  | unlock
  | connect (w : Writer)
deriving DecidableEq, Repr

/-- The state threaded through the constructors: the outside world and the
chronological list of the calls made so far. -/
structure St (σ : Type) where
  world : σ
  trace : List Event
deriving DecidableEq, Repr

/-- Append one event to the trace. -/
def St.log {σ : Type} (s : St σ) (e : Event) : St σ :=
  { world := s.world, trace := s.trace ++ [e] }

/-- The collaborators of `srslog.go`, over a world of type `σ`.

* `validatePriority` is the package's validator (not in `srslog.go`); it is pure.
* `osArgs0` is `os.Args[0]` (the Go runtime always provides it).
* `osHostname` is `os.Hostname()`, returning `(name, err)`.
* `readFile` is `ioutil.ReadFile(path)`, returning `(data, err)`.
* `parseCerts` is the list of certificates `AppendCertsFromPEM` finds in a PEM text.
* `connect` is the method `(*writer).connect` (not in `srslog.go`): it may update
  the writer it is called on and returns an error or nil. -/
structure Sys (σ : Type) where
  validatePriority : Priority → Option GoError
  osArgs0 : String
  osHostname : σ → (String × Option GoError) × σ
  readFile : String → σ → (Bytes × Option GoError) × σ
  parseCerts : Bytes → List Cert
  connect : Writer → σ → (Writer × Option GoError) × σ

/-- The call `validatePriority(priority)`, recorded. -/
def callValidate {σ : Type} (sys : Sys σ) (p : Priority) (s : St σ) :
    Option GoError × St σ :=
  (sys.validatePriority p, s.log (Event.validate p))

/-- The call `os.Hostname()`, recorded. -/
def callHostname {σ : Type} (sys : Sys σ) (s : St σ) :
    (String × Option GoError) × St σ :=
  ((sys.osHostname s.world).1,
   { world := (sys.osHostname s.world).2, trace := s.trace ++ [Event.hostname] })

/-- The call `ioutil.ReadFile(path)`, recorded. -/
def callReadFile {σ : Type} (sys : Sys σ) (path : String) (s : St σ) :
    (Bytes × Option GoError) × St σ :=
  ((sys.readFile path s.world).1,
   { world := (sys.readFile path s.world).2, trace := s.trace ++ [Event.readFile path] })

/-- The call `w.connect()`, recorded with the writer it is called on. -/
def callConnect {σ : Type} (sys : Sys σ) (w : Writer) (s : St σ) :
    (Writer × Option GoError) × St σ :=
  ((sys.connect w s.world).1,
   { world := (sys.connect w s.world).2, trace := s.trace ++ [Event.connect w] })

/-- Go `x509.NewCertPool()`: the empty pool. -/
def NewCertPool : CertPool := []

/-- Go `pool.AppendCertsFromPEM(pem)`: the pool with the certificates found in
`pem` added, and whether any was found. -/
def AppendCertsFromPEM {σ : Type} (sys : Sys σ) (pool : CertPool) (pem : Bytes) :
    CertPool × Bool :=
  (pool ++ sys.parseCerts pem, !(sys.parseCerts pem).isEmpty)

/-! ## The constructors of `srslog.go` -/

/-- The function `DialWithTLSConfig` (lines 52-79). -/
def DialWithTLSConfig {σ : Type} (sys : Sys σ) (network raddr : String)
    (priority : Priority) (tag : String) (tlsConfig : Option TlsConfig) (s : St σ) :
    (Option Writer × Option GoError) × St σ :=
  let v := callValidate sys priority s
  match v.1 with
  | some err => ((none, some err), v.2)
  | none =>
    let tag := if tag = "" then sys.osArgs0 else tag
    let h := callHostname sys v.2
    let hostname := h.1.1
    let w : Writer :=
      { priority := priority, tag := tag, hostname := hostname, network := network,
        raddr := raddr, tlsConfig := tlsConfig, conn := none }
    let s1 := h.2.log Event.lock
    let c := callConnect sys w s1
    let w := c.1.1
    let err := c.1.2
    -- the deferred `w.Unlock()` runs on both returns
    let s2 := c.2.log Event.unlock
    match err with
    | some e => ((none, some e), s2)
    | none => ((some w, err), s2)

/-- The function `Dial` (lines 34-36). -/
def Dial {σ : Type} (sys : Sys σ) (network raddr : String) (priority : Priority)
    (tag : String) (s : St σ) : (Option Writer × Option GoError) × St σ :=
  DialWithTLSConfig sys network raddr priority tag none s

/-- The function `New` (lines 25-27). -/
def New {σ : Type} (sys : Sys σ) (priority : Priority) (tag : String) (s : St σ) :
    (Option Writer × Option GoError) × St σ :=
  Dial sys "" "" priority tag s

/-- The function `DialWithTLSCertPath` (lines 38-50). -/
def DialWithTLSCertPath {σ : Type} (sys : Sys σ) (network raddr : String)
    (priority : Priority) (tag certPath : String) (s : St σ) :
    (Option Writer × Option GoError) × St σ :=
  let pool := NewCertPool
  let r := callReadFile sys certPath s
  let serverCert := r.1.1
  match r.1.2 with
  | some err => ((none, some err), r.2)
  | none =>
    let pool := (AppendCertsFromPEM sys pool serverCert).1
    let config : TlsConfig := { TlsConfig.zero with RootCAs := some pool }
    DialWithTLSConfig sys network raddr priority tag (some config) r.2

/-- The function `NewLogger` (lines 85-91). -/
def NewLogger {σ : Type} (sys : Sys σ) (p : Priority) (logFlag : Int) (s : St σ) :
    (Option Logger × Option GoError) × St σ :=
  let r := New sys p "" s
  match r.1.2 with
  | some err => ((none, some err), r.2)
  | none => ((some (logNew r.1.1 "" logFlag), none), r.2)

/-! ## Vocabulary of the statements -/

/-- Whether an event is a call of `connect`. -/
def Event.isConnect : Event → Bool
  | Event.connect _ => true
  | _ => false

/-- The number of calls of `connect` in a trace. -/
def connectCalls (t : List Event) : Nat :=
  (t.filter Event.isConnect).length

/-- The environment `sys` in which the error returned by `os.Hostname()` is replaced
by `f` of the world, the name returned and the effect on the world being kept. -/
def Sys.withHostnameErr {σ : Type} (sys : Sys σ) (f : σ → Option GoError) : Sys σ :=
  { validatePriority := sys.validatePriority
    osArgs0 := sys.osArgs0
    osHostname := fun wld => (((sys.osHostname wld).1.1, f wld), (sys.osHostname wld).2)
    readFile := sys.readFile
    parseCerts := sys.parseCerts
    connect := sys.connect }

/-! ## A sample environment

A concrete world on which the constructors can be evaluated.  The world is the
number of collaborator calls made so far.  Priorities 0..191 are valid, the
hostname lookup fails, two certificate files are readable (`ca.pem` holds one
certificate, `empty.pem` holds none), and only the local syslog server
(empty network) accepts connections. -/

/-- A sample validator: the priorities from 0 to 191 are valid. -/
def sampleValidate (p : Priority) : Option GoError :=
  if p < 0 ∨ p > 191 then some "log/syslog: invalid priority" else none

/-- A sample file system. -/
def sampleReadFile (path : String) (n : Nat) : (Bytes × Option GoError) × Nat :=
  if path = "ca.pem" then (([45, 45, 77, 73], none), n + 1)
  else if path = "empty.pem" then (([], none), n + 1)
  else (([], some "open: no such file or directory"), n + 1)

/-- A sample connector: it stores a connection handle when the network is empty
and refuses every other network. -/
def sampleConnect (w : Writer) (n : Nat) : (Writer × Option GoError) × Nat :=
  if w.network = "" then (({ w with conn := some n }, none), n + 1)
  else ((w, some "dial: connection refused"), n + 1)

/-- The sample environment. -/
def sampleSys : Sys Nat :=
  { validatePriority := sampleValidate
    osArgs0 := "prog"
    osHostname := fun n => (("", some "hostname: lookup failed"), n + 1)
    readFile := sampleReadFile
    parseCerts := fun b => if b = [] then [] else [b]
    connect := sampleConnect }

/-- The initial state: world 0, nothing called yet. -/
def s0 : St Nat := { world := 0, trace := [] }

end Srslog

/-! ## Shared lemmas -/

namespace Srslog

/-- An invalid priority makes `DialWithTLSConfig` return the validator's error
right after the validation. -/
theorem DialWithTLSConfig_of_invalid {σ : Type} (sys : Sys σ) (network raddr : String)
    (p : Priority) (tag : String) (cfg : Option TlsConfig) (s : St σ) (e : GoError)
    (h : sys.validatePriority p = some e) :
    DialWithTLSConfig sys network raddr p tag cfg s
      = ((none, some e), { world := s.world, trace := s.trace ++ [Event.validate p] }) := by
  simp [DialWithTLSConfig, callValidate, St.log, h]

/-- With a valid priority, `DialWithTLSConfig` looks the hostname up, locks, calls
`connect` once on the writer it built, unlocks, and returns what `connect` decides. -/
theorem DialWithTLSConfig_of_valid {σ : Type} (sys : Sys σ) (network raddr : String)
    (p : Priority) (tag : String) (cfg : Option TlsConfig) (s : St σ)
    (h : sys.validatePriority p = none) :
    ∃ w0 : Writer,
      w0 = { priority := p, tag := if tag = "" then sys.osArgs0 else tag,
             hostname := (sys.osHostname s.world).1.1, network := network,
             raddr := raddr, tlsConfig := cfg, conn := none } ∧
      DialWithTLSConfig sys network raddr p tag cfg s
        = ((match (sys.connect w0 (sys.osHostname s.world).2).1.2 with
            | some e => (none, some e)
            | none => (some (sys.connect w0 (sys.osHostname s.world).2).1.1, none)),
           { world := (sys.connect w0 (sys.osHostname s.world).2).2,
             trace := s.trace ++ [Event.validate p, Event.hostname, Event.lock,
                                  Event.connect w0, Event.unlock] }) := by
  refine ⟨_, rfl, ?_⟩
  simp only [DialWithTLSConfig, callValidate, callHostname, callConnect, St.log, h]
  split <;> simp_all

/-- The calls of `connect` in a trace extended by the five events of a run of
`DialWithTLSConfig` on a valid priority. -/
theorem connectCalls_append_run (t : List Event) (p : Priority) (w : Writer) :
    connectCalls (t ++ [Event.validate p, Event.hostname, Event.lock,
                        Event.connect w, Event.unlock]) = connectCalls t + 1 := by
  simp [connectCalls, List.filter_append, Event.isConnect, List.filter]

/-- The result of `DialWithTLSCertPath` when the certificate file cannot be read. -/
theorem DialWithTLSCertPath_of_unreadable {σ : Type} (sys : Sys σ)
    (network raddr : String) (p : Priority) (tag certPath : String) (s : St σ)
    (er : GoError) (h : (sys.readFile certPath s.world).1.2 = some er) :
    DialWithTLSCertPath sys network raddr p tag certPath s
      = ((none, some er),
         { world := (sys.readFile certPath s.world).2,
           trace := s.trace ++ [Event.readFile certPath] }) := by
  simp [DialWithTLSCertPath, callReadFile, h]

/-- The result of `DialWithTLSCertPath` when the certificate file is read. -/
theorem DialWithTLSCertPath_of_readable {σ : Type} (sys : Sys σ)
    (network raddr : String) (p : Priority) (tag certPath : String) (s : St σ)
    (h : (sys.readFile certPath s.world).1.2 = none) :
    DialWithTLSCertPath sys network raddr p tag certPath s
      = DialWithTLSConfig sys network raddr p tag
          (some { RootCAs := some (sys.parseCerts (sys.readFile certPath s.world).1.1),
                  ServerName := "", InsecureSkipVerify := false,
                  MinVersion := 0, MaxVersion := 0 })
          { world := (sys.readFile certPath s.world).2,
            trace := s.trace ++ [Event.readFile certPath] } := by
  simp [DialWithTLSCertPath, callReadFile, h, AppendCertsFromPEM, NewCertPool,
    TlsConfig.zero]

/-! ## The claims -/

/-- C1: when `validatePriority` rejects the priority with error `e`,
`DialWithTLSConfig` returns a nil writer together with exactly `e`; the only call
made is the validation itself (no hostname lookup, no lock, no `connect`) and the
world is left as it was. -/
theorem C1_invalid_priority_rejected_first {σ : Type} (sys : Sys σ)
    (network raddr : String) (p : Priority) (tag : String) (tlsConfig : Option TlsConfig)
    (s : St σ) (e : GoError) (h : sys.validatePriority p = some e) :
    DialWithTLSConfig sys network raddr p tag tlsConfig s
        = ((none, some e), { world := s.world, trace := s.trace ++ [Event.validate p] }) ∧
      connectCalls (DialWithTLSConfig sys network raddr p tag tlsConfig s).2.trace
        = connectCalls s.trace := by
  rw [DialWithTLSConfig_of_invalid sys network raddr p tag tlsConfig s e h]
  refine ⟨rfl, ?_⟩
  simp [connectCalls, List.filter_append, Event.isConnect, List.filter]

/-- Witness of C1: priority -1 on the sample environment. -/
theorem C1_witness :
    sampleSys.validatePriority (-1) = some "log/syslog: invalid priority" ∧
    (DialWithTLSConfig sampleSys "tcp" "h:514" (-1) "" (some TlsConfig.zero) s0
        = ((none, some "log/syslog: invalid priority"),
           { world := 0, trace := [Event.validate (-1)] }) ∧
      connectCalls
          (DialWithTLSConfig sampleSys "tcp" "h:514" (-1) "" (some TlsConfig.zero) s0).2.trace
        = connectCalls s0.trace) :=
  ⟨by decide,
   C1_invalid_priority_rejected_first sampleSys "tcp" "h:514" (-1) ""
     (some TlsConfig.zero) s0 "log/syslog: invalid priority" (by decide)⟩

/-- C2: with a valid priority, `DialWithTLSConfig` calls `connect` exactly once, on
a writer `w0`; if that call fails with `e` the result is a nil writer with exactly
`e`, and if it succeeds the result is a non-nil writer with a nil error. -/
theorem C2_connect_once_and_decides {σ : Type} (sys : Sys σ)
    (network raddr : String) (p : Priority) (tag : String) (tlsConfig : Option TlsConfig)
    (s : St σ) (h : sys.validatePriority p = none) :
    ∃ w0 : Writer,
      (DialWithTLSConfig sys network raddr p tag tlsConfig s).2.trace
          = s.trace ++ [Event.validate p, Event.hostname, Event.lock,
                        Event.connect w0, Event.unlock] ∧
      connectCalls (DialWithTLSConfig sys network raddr p tag tlsConfig s).2.trace
          = connectCalls s.trace + 1 ∧
      (∀ e, (sys.connect w0 (sys.osHostname s.world).2).1.2 = some e →
          (DialWithTLSConfig sys network raddr p tag tlsConfig s).1 = (none, some e)) ∧
      ((sys.connect w0 (sys.osHostname s.world).2).1.2 = none →
          ∃ w, (DialWithTLSConfig sys network raddr p tag tlsConfig s).1 = (some w, none)) := by
  obtain ⟨w0, _, hr⟩ := DialWithTLSConfig_of_valid sys network raddr p tag tlsConfig s h
  refine ⟨w0, ?_, ?_, ?_, ?_⟩
  · rw [hr]
  · rw [hr]; exact connectCalls_append_run s.trace p w0
  · intro e he
    rw [hr]; simp [he]
  · intro he
    rw [hr]; simp [he]

/-- Witness of C2: priority 14 towards a network the sample connector refuses. -/
theorem C2_witness :
    sampleSys.validatePriority 14 = none ∧
    ∃ w0 : Writer,
      (DialWithTLSConfig sampleSys "tcp" "h:514" 14 "t" none s0).2.trace
          = s0.trace ++ [Event.validate 14, Event.hostname, Event.lock,
                         Event.connect w0, Event.unlock] ∧
      connectCalls (DialWithTLSConfig sampleSys "tcp" "h:514" 14 "t" none s0).2.trace
          = connectCalls s0.trace + 1 ∧
      (∀ e, (sampleSys.connect w0 (sampleSys.osHostname s0.world).2).1.2 = some e →
          (DialWithTLSConfig sampleSys "tcp" "h:514" 14 "t" none s0).1 = (none, some e)) ∧
      ((sampleSys.connect w0 (sampleSys.osHostname s0.world).2).1.2 = none →
          ∃ w, (DialWithTLSConfig sampleSys "tcp" "h:514" 14 "t" none s0).1 = (some w, none)) :=
  ⟨by decide,
   C2_connect_once_and_decides sampleSys "tcp" "h:514" 14 "t" none s0 (by decide)⟩

/-- C3: with a valid priority, `DialWithTLSConfig` builds one writer `w0`, whose tag
is `os.Args[0]` when the tag argument is empty and the tag argument itself when it
is not.  That writer is the one `connect` is called on, and the result is what
`connect` makes of it: its error with a nil writer, or the writer it left with a
nil error; a returned writer has that tag whenever `connect` keeps the tag. -/
theorem C3_tag_defaults_to_program_name {σ : Type} (sys : Sys σ)
    (network raddr : String) (p : Priority) (tag : String) (tlsConfig : Option TlsConfig)
    (s : St σ) (h : sys.validatePriority p = none) :
    ∃ w0 : Writer,
      (tag = "" → w0.tag = sys.osArgs0) ∧
      (tag ≠ "" → w0.tag = tag) ∧
      DialWithTLSConfig sys network raddr p tag tlsConfig s
        = ((match (sys.connect w0 (sys.osHostname s.world).2).1.2 with
            | some e => (none, some e)
            | none => (some (sys.connect w0 (sys.osHostname s.world).2).1.1, none)),
           { world := (sys.connect w0 (sys.osHostname s.world).2).2,
             trace := s.trace ++ [Event.validate p, Event.hostname, Event.lock,
                                  Event.connect w0, Event.unlock] }) ∧
      (∀ w, (DialWithTLSConfig sys network raddr p tag tlsConfig s).1.1 = some w →
          (sys.connect w0 (sys.osHostname s.world).2).1.1.tag = w0.tag →
          w.tag = if tag = "" then sys.osArgs0 else tag) := by
  obtain ⟨w0, hw, hr⟩ := DialWithTLSConfig_of_valid sys network raddr p tag tlsConfig s h
  have htag : w0.tag = if tag = "" then sys.osArgs0 else tag := by rw [hw]
  refine ⟨w0, ?_, ?_, hr, ?_⟩
  · intro ht
    rw [htag]; simp [ht]
  · intro ht
    rw [htag]; simp [ht]
  · intro w hwr hkeep
    rw [hr] at hwr
    rw [← htag, ← hkeep]
    revert hwr
    cases (sys.connect w0 (sys.osHostname s.world).2).1.2 <;> simp
    intro hh; rw [hh]

/-- Witness of C3: on the sample environment the construction towards the local
server succeeds; the writer returned has tag `prog` (the program name) for an
empty tag argument and `mytag` for the tag argument `mytag`. -/
theorem C3_witness :
    sampleSys.validatePriority 14 = none ∧
    sampleSys.osArgs0 = "prog" ∧
    (DialWithTLSConfig sampleSys "" "" 14 "" none s0).1
      = (some { priority := 14, tag := "prog", hostname := "", network := "", raddr := "",
                tlsConfig := none, conn := some 1 }, none) ∧
    (DialWithTLSConfig sampleSys "" "" 14 "mytag" none s0).1
      = (some { priority := 14, tag := "mytag", hostname := "", network := "", raddr := "",
                tlsConfig := none, conn := some 1 }, none) ∧
    (∃ w0 : Writer,
      (("" : String) = "" → w0.tag = sampleSys.osArgs0) ∧
      (("" : String) ≠ "" → w0.tag = "") ∧
      DialWithTLSConfig sampleSys "" "" 14 "" none s0
        = ((match (sampleSys.connect w0 (sampleSys.osHostname s0.world).2).1.2 with
            | some e => (none, some e)
            | none => (some (sampleSys.connect w0 (sampleSys.osHostname s0.world).2).1.1,
                       none)),
           { world := (sampleSys.connect w0 (sampleSys.osHostname s0.world).2).2,
             trace := s0.trace ++ [Event.validate 14, Event.hostname, Event.lock,
                                   Event.connect w0, Event.unlock] }) ∧
      (∀ w, (DialWithTLSConfig sampleSys "" "" 14 "" none s0).1.1 = some w →
          (sampleSys.connect w0 (sampleSys.osHostname s0.world).2).1.1.tag = w0.tag →
          w.tag = if ("" : String) = "" then sampleSys.osArgs0 else "")) ∧
    (∃ w0 : Writer,
      (("mytag" : String) = "" → w0.tag = sampleSys.osArgs0) ∧
      (("mytag" : String) ≠ "" → w0.tag = "mytag") ∧
      DialWithTLSConfig sampleSys "" "" 14 "mytag" none s0
        = ((match (sampleSys.connect w0 (sampleSys.osHostname s0.world).2).1.2 with
            | some e => (none, some e)
            | none => (some (sampleSys.connect w0 (sampleSys.osHostname s0.world).2).1.1,
                       none)),
           { world := (sampleSys.connect w0 (sampleSys.osHostname s0.world).2).2,
             trace := s0.trace ++ [Event.validate 14, Event.hostname, Event.lock,
                                   Event.connect w0, Event.unlock] }) ∧
      (∀ w, (DialWithTLSConfig sampleSys "" "" 14 "mytag" none s0).1.1 = some w →
          (sampleSys.connect w0 (sampleSys.osHostname s0.world).2).1.1.tag = w0.tag →
          w.tag = if ("mytag" : String) = "" then sampleSys.osArgs0 else "mytag")) :=
  ⟨by decide, by decide, by decide, by decide,
   C3_tag_defaults_to_program_name sampleSys "" "" 14 "" none s0 (by decide),
   C3_tag_defaults_to_program_name sampleSys "" "" 14 "mytag" none s0 (by decide)⟩

/-- C4: with a valid priority, `DialWithTLSConfig` builds one writer `w0` that has
the priority, network, raddr and tlsConfig passed as arguments, unchanged, and no
connection yet.  It calls `connect` on `w0`, once and under the lock, and returns
what `connect` makes of it: its error with a nil writer, or the writer `connect`
left with a nil error; a returned writer therefore has every one of these fields
that `connect` keeps. -/
theorem C4_descriptor_passed_unchanged {σ : Type} (sys : Sys σ)
    (network raddr : String) (p : Priority) (tag : String) (tlsConfig : Option TlsConfig)
    (s : St σ) (h : sys.validatePriority p = none) :
    ∃ w0 : Writer,
      w0.priority = p ∧ w0.network = network ∧ w0.raddr = raddr ∧
      w0.tlsConfig = tlsConfig ∧ w0.conn = none ∧
      DialWithTLSConfig sys network raddr p tag tlsConfig s
        = ((match (sys.connect w0 (sys.osHostname s.world).2).1.2 with
            | some e => (none, some e)
            | none => (some (sys.connect w0 (sys.osHostname s.world).2).1.1, none)),
           { world := (sys.connect w0 (sys.osHostname s.world).2).2,
             trace := s.trace ++ [Event.validate p, Event.hostname, Event.lock,
                                  Event.connect w0, Event.unlock] }) ∧
      ((sys.connect w0 (sys.osHostname s.world).2).1.2 = none →
        (DialWithTLSConfig sys network raddr p tag tlsConfig s).1.1
          = some (sys.connect w0 (sys.osHostname s.world).2).1.1) ∧
      (∀ w, (DialWithTLSConfig sys network raddr p tag tlsConfig s).1.1 = some w →
        ((sys.connect w0 (sys.osHostname s.world).2).1.1.priority = w0.priority →
            w.priority = p) ∧
        ((sys.connect w0 (sys.osHostname s.world).2).1.1.network = w0.network →
            w.network = network) ∧
        ((sys.connect w0 (sys.osHostname s.world).2).1.1.raddr = w0.raddr →
            w.raddr = raddr) ∧
        ((sys.connect w0 (sys.osHostname s.world).2).1.1.tlsConfig = w0.tlsConfig →
            w.tlsConfig = tlsConfig)) := by
  obtain ⟨w0, hw, hr⟩ := DialWithTLSConfig_of_valid sys network raddr p tag tlsConfig s h
  have h1 : w0.priority = p := by rw [hw]
  have h2 : w0.network = network := by rw [hw]
  have h3 : w0.raddr = raddr := by rw [hw]
  have h4 : w0.tlsConfig = tlsConfig := by rw [hw]
  have h5 : w0.conn = none := by rw [hw]
  refine ⟨w0, h1, h2, h3, h4, h5, hr, ?_, ?_⟩
  · intro hc
    rw [hr]; simp [hc]
  · intro w hwr
    have hwc : w = (sys.connect w0 (sys.osHostname s.world).2).1.1 := by
      rw [hr] at hwr
      revert hwr
      cases (sys.connect w0 (sys.osHostname s.world).2).1.2 <;> simp
      intro hh; exact hh.symm
    refine ⟨?_, ?_, ?_, ?_⟩
    · intro hk; rw [hwc, hk, h1]
    · intro hk; rw [hwc, hk, h2]
    · intro hk; rw [hwc, hk, h3]
    · intro hk; rw [hwc, hk, h4]

/-- Witness of C4: on the sample environment the construction towards the local
server with a TLS configuration succeeds, and the writer returned carries the
priority, network, address and TLS configuration passed. -/
theorem C4_witness :
    sampleSys.validatePriority 14 = none ∧
    DialWithTLSConfig sampleSys "" "/dev/log" 14 "t" (some TlsConfig.zero) s0
      = ((some { priority := 14, tag := "t", hostname := "", network := "",
                 raddr := "/dev/log", tlsConfig := some TlsConfig.zero, conn := some 1 },
          none),
         { world := 2,
           trace := [Event.validate 14, Event.hostname, Event.lock,
                     Event.connect
                       { priority := 14, tag := "t", hostname := "", network := "",
                         raddr := "/dev/log", tlsConfig := some TlsConfig.zero,
                         conn := none },
                     Event.unlock] }) ∧
    ∃ w0 : Writer,
      w0.priority = 14 ∧ w0.network = "" ∧ w0.raddr = "/dev/log" ∧
      w0.tlsConfig = some TlsConfig.zero ∧ w0.conn = none ∧
      DialWithTLSConfig sampleSys "" "/dev/log" 14 "t" (some TlsConfig.zero) s0
        = ((match (sampleSys.connect w0 (sampleSys.osHostname s0.world).2).1.2 with
            | some e => (none, some e)
            | none => (some (sampleSys.connect w0 (sampleSys.osHostname s0.world).2).1.1,
                       none)),
           { world := (sampleSys.connect w0 (sampleSys.osHostname s0.world).2).2,
             trace := s0.trace ++ [Event.validate 14, Event.hostname, Event.lock,
                                   Event.connect w0, Event.unlock] }) ∧
      ((sampleSys.connect w0 (sampleSys.osHostname s0.world).2).1.2 = none →
        (DialWithTLSConfig sampleSys "" "/dev/log" 14 "t" (some TlsConfig.zero) s0).1.1
          = some (sampleSys.connect w0 (sampleSys.osHostname s0.world).2).1.1) ∧
      (∀ w, (DialWithTLSConfig sampleSys "" "/dev/log" 14 "t"
                (some TlsConfig.zero) s0).1.1 = some w →
        ((sampleSys.connect w0 (sampleSys.osHostname s0.world).2).1.1.priority
            = w0.priority → w.priority = 14) ∧
        ((sampleSys.connect w0 (sampleSys.osHostname s0.world).2).1.1.network
            = w0.network → w.network = "") ∧
        ((sampleSys.connect w0 (sampleSys.osHostname s0.world).2).1.1.raddr
            = w0.raddr → w.raddr = "/dev/log") ∧
        ((sampleSys.connect w0 (sampleSys.osHostname s0.world).2).1.1.tlsConfig
            = w0.tlsConfig → w.tlsConfig = some TlsConfig.zero)) :=
  ⟨by decide, by decide,
   C4_descriptor_passed_unchanged sampleSys "" "/dev/log" 14 "t"
     (some TlsConfig.zero) s0 (by decide)⟩

/-- C5: with a valid priority, the error of the hostname lookup has no influence on
`DialWithTLSConfig` (replacing it by any other error, or by none, changes neither
the result nor the final state); the hostname of the writer built is the string the
lookup returned, and the error returned is the one `connect` returned, the writer
being nil exactly when `connect` failed. -/
theorem C5_hostname_error_discarded {σ : Type} (sys : Sys σ)
    (network raddr : String) (p : Priority) (tag : String) (tlsConfig : Option TlsConfig)
    (s : St σ) (h : sys.validatePriority p = none) :
    (∀ f : σ → Option GoError,
        DialWithTLSConfig (sys.withHostnameErr f) network raddr p tag tlsConfig s
          = DialWithTLSConfig sys network raddr p tag tlsConfig s) ∧
    ∃ w0 : Writer,
      (DialWithTLSConfig sys network raddr p tag tlsConfig s).2.trace
          = s.trace ++ [Event.validate p, Event.hostname, Event.lock,
                        Event.connect w0, Event.unlock] ∧
      w0.hostname = (sys.osHostname s.world).1.1 ∧
      (DialWithTLSConfig sys network raddr p tag tlsConfig s).1.2
          = (sys.connect w0 (sys.osHostname s.world).2).1.2 ∧
      ((DialWithTLSConfig sys network raddr p tag tlsConfig s).1.1 = none
          ↔ (sys.connect w0 (sys.osHostname s.world).2).1.2 ≠ none) := by
  refine ⟨fun f => rfl, ?_⟩
  obtain ⟨w0, hw, hr⟩ := DialWithTLSConfig_of_valid sys network raddr p tag tlsConfig s h
  refine ⟨w0, ?_, ?_, ?_, ?_⟩
  · rw [hr]
  · rw [hw]
  · rw [hr]
    cases (sys.connect w0 (sys.osHostname s.world).2).1.2 <;> simp
  · rw [hr]
    cases (sys.connect w0 (sys.osHostname s.world).2).1.2 <;> simp

/-- Witness of C5: on the sample environment the hostname lookup fails, and the
construction towards the local syslog server succeeds all the same. -/
theorem C5_witness :
    sampleSys.validatePriority 14 = none ∧
    (sampleSys.osHostname s0.world).1 = ("", some "hostname: lookup failed") ∧
    (DialWithTLSConfig sampleSys "" "" 14 "t" none s0).1.2 = none ∧
    ((∀ f : Nat → Option GoError,
        DialWithTLSConfig (sampleSys.withHostnameErr f) "" "" 14 "t" none s0
          = DialWithTLSConfig sampleSys "" "" 14 "t" none s0) ∧
    ∃ w0 : Writer,
      (DialWithTLSConfig sampleSys "" "" 14 "t" none s0).2.trace
          = s0.trace ++ [Event.validate 14, Event.hostname, Event.lock,
                         Event.connect w0, Event.unlock] ∧
      w0.hostname = (sampleSys.osHostname s0.world).1.1 ∧
      (DialWithTLSConfig sampleSys "" "" 14 "t" none s0).1.2
          = (sampleSys.connect w0 (sampleSys.osHostname s0.world).2).1.2 ∧
      ((DialWithTLSConfig sampleSys "" "" 14 "t" none s0).1.1 = none
          ↔ (sampleSys.connect w0 (sampleSys.osHostname s0.world).2).1.2 ≠ none)) :=
  ⟨by decide, by decide, by decide,
   C5_hostname_error_discarded sampleSys "" "" 14 "t" none s0 (by decide)⟩

/-- C6: `Dial` is `DialWithTLSConfig` with a nil TLS configuration, and `New` is
`Dial` with the empty network and the empty address: same result, same final
state (world and calls made). -/
theorem C6_Dial_and_New_delegate {σ : Type} (sys : Sys σ)
    (network raddr : String) (p : Priority) (tag : String) (s : St σ) :
    Dial sys network raddr p tag s = DialWithTLSConfig sys network raddr p tag none s ∧
    New sys p tag s = Dial sys "" "" p tag s :=
  ⟨rfl, rfl⟩

/-- C7, refuted as stated: on the sample environment priority -1 is invalid, yet
`DialWithTLSCertPath` on a missing certificate file returns the error of the read,
not the validation error, and on a readable file it reads the file before it
validates the priority. -/
theorem C7_counterexample :
    sampleSys.validatePriority (-1) = some "log/syslog: invalid priority" ∧
    (DialWithTLSCertPath sampleSys "tcp" "h:6514" (-1) "t" "missing.pem" s0).1
      = (none, some "open: no such file or directory") ∧
    (DialWithTLSCertPath sampleSys "tcp" "h:6514" (-1) "t" "missing.pem" s0).1
      ≠ (none, sampleSys.validatePriority (-1)) ∧
    (DialWithTLSCertPath sampleSys "tcp" "h:6514" (-1) "t" "missing.pem" s0).2.trace
      = [Event.readFile "missing.pem"] ∧
    (DialWithTLSCertPath sampleSys "tcp" "h:6514" (-1) "t" "ca.pem" s0).2.trace
      = [Event.readFile "ca.pem", Event.validate (-1)] := by
  decide

/-- C7, amended: with a priority that `validatePriority` rejects with `e`,
`DialWithTLSConfig`, `Dial`, `New` and `NewLogger` return `e` having made no call
but the validation; `DialWithTLSCertPath` first reads the certificate file: if the
read fails with `er` it returns `er` and does not validate, and if the read
succeeds it returns `e`, the read and the validation being the only calls made. -/
theorem C7_invalid_priority_after_certificate_read {σ : Type} (sys : Sys σ)
    (network raddr : String) (p : Priority) (tag certPath : String)
    (tlsConfig : Option TlsConfig) (logFlag : Int) (s : St σ) (e : GoError)
    (h : sys.validatePriority p = some e) :
    DialWithTLSConfig sys network raddr p tag tlsConfig s
        = ((none, some e), { world := s.world, trace := s.trace ++ [Event.validate p] }) ∧
    Dial sys network raddr p tag s
        = ((none, some e), { world := s.world, trace := s.trace ++ [Event.validate p] }) ∧
    New sys p tag s
        = ((none, some e), { world := s.world, trace := s.trace ++ [Event.validate p] }) ∧
    NewLogger sys p logFlag s
        = ((none, some e), { world := s.world, trace := s.trace ++ [Event.validate p] }) ∧
    (∀ er, (sys.readFile certPath s.world).1.2 = some er →
        DialWithTLSCertPath sys network raddr p tag certPath s
          = ((none, some er),
             { world := (sys.readFile certPath s.world).2,
               trace := s.trace ++ [Event.readFile certPath] })) ∧
    ((sys.readFile certPath s.world).1.2 = none →
        DialWithTLSCertPath sys network raddr p tag certPath s
          = ((none, some e),
             { world := (sys.readFile certPath s.world).2,
               trace := s.trace ++ [Event.readFile certPath, Event.validate p] })) := by
  refine ⟨?_, ?_, ?_, ?_, ?_, ?_⟩
  · exact DialWithTLSConfig_of_invalid sys network raddr p tag tlsConfig s e h
  · exact DialWithTLSConfig_of_invalid sys network raddr p tag none s e h
  · exact DialWithTLSConfig_of_invalid sys "" "" p tag none s e h
  · have hn := DialWithTLSConfig_of_invalid sys "" "" p "" none s e h
    simp only [NewLogger, New, Dial, hn]
  · intro er her
    exact DialWithTLSCertPath_of_unreadable sys network raddr p tag certPath s er her
  · intro hok
    rw [DialWithTLSCertPath_of_readable sys network raddr p tag certPath s hok,
      DialWithTLSConfig_of_invalid sys network raddr p tag _ _ e h]
    simp

/-- Witness of C7 (amended): priority -1 and the readable file `ca.pem` on the
sample environment. -/
theorem C7_witness :
    sampleSys.validatePriority (-1) = some "log/syslog: invalid priority" ∧
    (sampleSys.readFile "ca.pem" s0.world).1.2 = none ∧
    DialWithTLSCertPath sampleSys "tcp" "h:6514" (-1) "t" "ca.pem" s0
      = ((none, some "log/syslog: invalid priority"),
         { world := (sampleSys.readFile "ca.pem" s0.world).2,
           trace := s0.trace ++ [Event.readFile "ca.pem", Event.validate (-1)] }) :=
  ⟨by decide, by decide,
   (C7_invalid_priority_after_certificate_read sampleSys "tcp" "h:6514" (-1) "t"
      "ca.pem" none 0 s0 "log/syslog: invalid priority" (by decide)).2.2.2.2.2
     (by decide)⟩

/-- C8, refuted as stated: on the sample environment `NewLogger` succeeds, yet the
flags of the logger are not `logFlag` when `logFlag` does not fit in 32 bits: for
`logFlag = 4294967299` they are 3, and for `logFlag = 2147483648` they are
`-2147483648`. -/
theorem C8_counterexample :
    (NewLogger sampleSys 14 4294967299 s0).1
      = (some { out := some { priority := 14, tag := "prog", hostname := "", network := "",
                              raddr := "", tlsConfig := none, conn := some 1 },
                pfx := "", flag := 3 }, none) ∧
    (NewLogger sampleSys 14 4294967299 s0).1
      ≠ (some { out := some { priority := 14, tag := "prog", hostname := "", network := "",
                              raddr := "", tlsConfig := none, conn := some 1 },
                pfx := "", flag := 4294967299 }, none) ∧
    (NewLogger sampleSys 14 2147483648 s0).1
      = (some { out := some { priority := 14, tag := "prog", hostname := "", network := "",
                              raddr := "", tlsConfig := none, conn := some 1 },
                pfx := "", flag := -2147483648 }, none) := by
  decide

/-- C8, amended: `NewLogger(p, logFlag)` runs `New(p, "")`, that is
`DialWithTLSConfig` for the local syslog server with an empty tag and no TLS
configuration.  If that fails with `e` it returns a nil logger with exactly `e`;
otherwise the writer is non-nil and it returns, with a nil error, the logger whose
output is that writer, whose prefix is empty and whose flags are `int32(logFlag)`,
which is `logFlag` itself whenever `logFlag` lies between `-2^31` and `2^31 - 1`.
The tag of the writer `connect` is called on is the program name. -/
theorem C8_NewLogger_wraps_New {σ : Type} (sys : Sys σ) (p : Priority)
    (logFlag : Int) (s : St σ) :
    New sys p "" s = DialWithTLSConfig sys "" "" p "" none s ∧
    (NewLogger sys p logFlag s).2 = (New sys p "" s).2 ∧
    (∀ e, (New sys p "" s).1.2 = some e →
        (NewLogger sys p logFlag s).1 = (none, some e)) ∧
    ((New sys p "" s).1.2 = none →
        ∃ w, (New sys p "" s).1.1 = some w ∧
          (NewLogger sys p logFlag s).1
            = (some { out := some w, pfx := "", flag := toInt32 logFlag }, none) ∧
          (-2147483648 ≤ logFlag → logFlag < 2147483648 →
            (NewLogger sys p logFlag s).1
              = (some { out := some w, pfx := "", flag := logFlag }, none))) ∧
    (∀ w0, Event.connect w0 ∈ (NewLogger sys p logFlag s).2.trace →
        Event.connect w0 ∉ s.trace →
        w0.tag = sys.osArgs0 ∧ w0.network = "" ∧ w0.raddr = "" ∧ w0.tlsConfig = none) := by
  refine ⟨rfl, ?_, ?_, ?_, ?_⟩
  · simp only [NewLogger]
    split <;> rfl
  · intro e he
    simp only [NewLogger, he]
  · intro hn
    have hw : ∃ w, (New sys p "" s).1.1 = some w := by
      cases hv : sys.validatePriority p with
      | some e =>
        have hi := DialWithTLSConfig_of_invalid sys "" "" p "" none s e hv
        simp [New, Dial, hi] at hn
      | none =>
        obtain ⟨w0, _, hr⟩ := DialWithTLSConfig_of_valid sys "" "" p "" none s hv
        simp only [New, Dial, hr] at hn ⊢
        revert hn
        cases (sys.connect w0 (sys.osHostname s.world).2).1.2 <;> simp
    obtain ⟨w, hw⟩ := hw
    have hres : (NewLogger sys p logFlag s).1
        = (some { out := some w, pfx := "", flag := toInt32 logFlag }, none) := by
      simp only [NewLogger, hn, hw, logNew]
    refine ⟨w, hw, hres, ?_⟩
    intro hlo hhi
    have hfit : toInt32 logFlag = logFlag := by
      unfold toInt32
      omega
    rw [hres, hfit]
  · intro w0 hin hnot
    have hst : (NewLogger sys p logFlag s).2 = (New sys p "" s).2 := by
      simp only [NewLogger]
      split <;> rfl
    rw [hst] at hin
    cases hv : sys.validatePriority p with
    | some e =>
      have hi := DialWithTLSConfig_of_invalid sys "" "" p "" none s e hv
      simp [New, Dial, hi] at hin
      exact absurd hin hnot
    | none =>
      obtain ⟨w1, hw1, hr⟩ := DialWithTLSConfig_of_valid sys "" "" p "" none s hv
      simp only [New, Dial, hr] at hin
      simp at hin
      rcases hin with hin | hin
      · exact absurd hin hnot
      · subst hin
        rw [hw1]
        simp

/-- Witness of C8 (amended): a logger on the sample environment, with flags 3. -/
theorem C8_witness :
    (New sampleSys 14 "" s0).1.2 = none ∧
    ∃ w, (New sampleSys 14 "" s0).1.1 = some w ∧
      (NewLogger sampleSys 14 3 s0).1
        = (some { out := some w, pfx := "", flag := toInt32 3 }, none) ∧
      ((-2147483648 : Int) ≤ 3 → (3 : Int) < 2147483648 →
        (NewLogger sampleSys 14 3 s0).1
          = (some { out := some w, pfx := "", flag := 3 }, none)) :=
  ⟨by decide, (C8_NewLogger_wraps_New sampleSys 14 3 s0).2.2.2.1 (by decide)⟩

/-- C9, refuted as stated: on the sample environment `empty.pem` is readable and
holds no certificate, yet `DialWithTLSCertPath` calls `connect` on a writer whose
TLS configuration has an empty root pool, towards a remote address as well as
towards the local server, and in the latter case it returns a writer and no error. -/
theorem C9_counterexample :
    (sampleSys.readFile "empty.pem" s0.world).1 = ([], none) ∧
    sampleSys.parseCerts [] = [] ∧
    (DialWithTLSCertPath sampleSys "tcp" "h:6514" 14 "t" "empty.pem" s0).2.trace
      = [Event.readFile "empty.pem", Event.validate 14, Event.hostname, Event.lock,
         Event.connect
           { priority := 14, tag := "t", hostname := "", network := "tcp",
             raddr := "h:6514",
             tlsConfig := some { RootCAs := some [], ServerName := "",
                                 InsecureSkipVerify := false,
                                 MinVersion := 0, MaxVersion := 0 },
             conn := none },
         Event.unlock] ∧
    (DialWithTLSCertPath sampleSys "" "" 14 "t" "empty.pem" s0).1
      = (some { priority := 14, tag := "t", hostname := "", network := "", raddr := "",
                tlsConfig := some { RootCAs := some [], ServerName := "",
                                    InsecureSkipVerify := false,
                                    MinVersion := 0, MaxVersion := 0 },
                conn := some 2 },
         none) := by
  decide

/-- C9, amended: when the certificate file is readable and holds no parseable
certificate, `DialWithTLSCertPath` does not reject the empty trust configuration:
after the read it behaves as `DialWithTLSConfig` called with a non-nil TLS
configuration whose root pool is empty; with a valid priority `connect` is called
once, on a writer carrying that configuration, and the error returned is the one
`connect` returned. -/
theorem C9_empty_pool_is_dialed {σ : Type} (sys : Sys σ)
    (network raddr : String) (p : Priority) (tag certPath : String) (s : St σ)
    (hread : (sys.readFile certPath s.world).1.2 = none)
    (hempty : sys.parseCerts (sys.readFile certPath s.world).1.1 = []) :
    DialWithTLSCertPath sys network raddr p tag certPath s
      = DialWithTLSConfig sys network raddr p tag
          (some { RootCAs := some [], ServerName := "", InsecureSkipVerify := false,
                  MinVersion := 0, MaxVersion := 0 })
          { world := (sys.readFile certPath s.world).2,
            trace := s.trace ++ [Event.readFile certPath] } ∧
    (sys.validatePriority p = none →
      ∃ w0 : Writer,
        w0.tlsConfig = some { RootCAs := some [], ServerName := "",
                              InsecureSkipVerify := false,
                              MinVersion := 0, MaxVersion := 0 } ∧
        (DialWithTLSCertPath sys network raddr p tag certPath s).2.trace
          = s.trace ++ [Event.readFile certPath, Event.validate p, Event.hostname,
                        Event.lock, Event.connect w0, Event.unlock] ∧
        (DialWithTLSCertPath sys network raddr p tag certPath s).1.2
          = (sys.connect w0
              (sys.osHostname (sys.readFile certPath s.world).2).2).1.2) := by
  have hd := DialWithTLSCertPath_of_readable sys network raddr p tag certPath s hread
  rw [hempty] at hd
  refine ⟨hd, ?_⟩
  intro hv
  obtain ⟨w0, hw, hr⟩ := DialWithTLSConfig_of_valid sys network raddr p tag
    (some { RootCAs := some [], ServerName := "", InsecureSkipVerify := false,
            MinVersion := 0, MaxVersion := 0 })
    { world := (sys.readFile certPath s.world).2,
      trace := s.trace ++ [Event.readFile certPath] } hv
  refine ⟨w0, ?_, ?_, ?_⟩
  · rw [hw]
  · rw [hd, hr]
    simp
  · rw [hd, hr]
    simp only
    cases (sys.connect w0 (sys.osHostname (sys.readFile certPath s.world).2).2).1.2 <;> rfl

/-- Witness of C9 (amended): the file `empty.pem` of the sample environment. -/
theorem C9_witness :
    (sampleSys.readFile "empty.pem" s0.world).1.2 = none ∧
    sampleSys.parseCerts (sampleSys.readFile "empty.pem" s0.world).1.1 = [] ∧
    DialWithTLSCertPath sampleSys "" "" 14 "t" "empty.pem" s0
      = DialWithTLSConfig sampleSys "" "" 14 "t"
          (some { RootCAs := some [], ServerName := "", InsecureSkipVerify := false,
                  MinVersion := 0, MaxVersion := 0 })
          { world := (sampleSys.readFile "empty.pem" s0.world).2,
            trace := s0.trace ++ [Event.readFile "empty.pem"] } :=
  ⟨by decide, by decide,
   (C9_empty_pool_is_dialed sampleSys "" "" 14 "t" "empty.pem" s0
      (by decide) (by decide)).1⟩

/-- C10: `DialWithTLSCertPath` reads the certificate file first.  If the read fails
with `e` it returns a nil writer with exactly `e`, the read being the only call made
(no validation, no `connect`).  If the read succeeds with content `c`, it is
`DialWithTLSConfig` run after the read with a non-nil TLS configuration whose only
set field is `RootCAs`, the pool of the certificates parsed from `c`. -/
theorem C10_certificate_front_end {σ : Type} (sys : Sys σ)
    (network raddr : String) (p : Priority) (tag certPath : String) (s : St σ) :
    DialWithTLSCertPath sys network raddr p tag certPath s
      = match (sys.readFile certPath s.world).1.2 with
        | some e =>
          ((none, some e),
           { world := (sys.readFile certPath s.world).2,
             trace := s.trace ++ [Event.readFile certPath] })
        | none =>
          DialWithTLSConfig sys network raddr p tag
            (some { RootCAs := some (sys.parseCerts (sys.readFile certPath s.world).1.1),
                    ServerName := "", InsecureSkipVerify := false,
                    MinVersion := 0, MaxVersion := 0 })
            { world := (sys.readFile certPath s.world).2,
              trace := s.trace ++ [Event.readFile certPath] } := by
  cases hr : (sys.readFile certPath s.world).1.2 with
  | some e => exact DialWithTLSCertPath_of_unreadable sys network raddr p tag certPath s e hr
  | none => exact DialWithTLSCertPath_of_readable sys network raddr p tag certPath s hr

end Srslog
